import Mathlib

/-!
Verification of the GlobalMet weather aggregation service
(repository `Globalmet_test`).

The repository contains two parallel implementations of its service layer:

* `weather_api/core/services.py` (the refactored, documented version, used by
  the DRF class-based views in `weather_api/api/views.py`), embedded below in
  the `Core` namespace;
* `weather_api/services.py` (the original version, used by the function-based
  views in `weather_api/views.py`), embedded below in the `Legacy` namespace.

Python scalar values occurring in measurement records are modelled by `Val`;
Python `float` arithmetic is modelled over `ℚ` (all numbers appearing in the
relevant computations are exact decimals, and the statements proved here are
about the ideal arithmetic the code expresses).  Python dicts are modelled as
association lists in insertion order; `dict.get`/`in` become `List.lookup`.
Raised exceptions become `Except` errors.
-/

/-- A Python scalar value as it can occur in a measurement record:
`None`, a number (`int`/`float`, modelled as `ℚ`), a string, or a bool. -/
inductive Val where
  | none : Val
  | num : ℚ → Val
  | str : String → Val
  | bool : Bool → Val
deriving DecidableEq

/-- A measurement record: a Python dict from field names to values,
modelled as an association list in insertion order. -/
abbrev Measurement := List (String × Val)

/-- Statistics dict produced by `calculate_statistics`: keys
`min`, `max`, `promedio`, each a float or `None`. -/
structure Stats where
  min : Option ℚ
  max : Option ℚ
  promedio : Option ℚ
deriving DecidableEq

/-- The exceptions of `weather_api/core/exceptions.py` that the embedded code
can raise, plus the built-in Python exceptions raised by the legacy code
(`ValueError`, `TypeError`). -/
inductive WErr where
  | invalidDateFormat : String → WErr
  | invalidUnit : String → WErr
  | apiError : WErr
  | noDataFound : String → WErr
  | dataProcessing : String → WErr
  | tempConversion : WErr
  | valueError : String → WErr
  | typeError : WErr
deriving DecidableEq

deriving instance DecidableEq for Except

/-- ASCII lower-casing of one character, as Python `str.lower()` acts on the
unit and field names occurring here (all ASCII). -/
def lowerChar (c : Char) : Char :=
  if 'A' ≤ c ∧ c ≤ 'Z' then Char.ofNat (c.toNat + 32) else c

/-- Python `s.lower()` (ASCII). -/
def pyLower (s : String) : String :=
  String.mk (s.toList.map lowerChar)

/-- Python `s.strip()` on the character list: leading and trailing
whitespace removed. -/
def stripChars (cs : List Char) : List Char :=
  ((cs.dropWhile Char.isWhitespace).reverse.dropWhile Char.isWhitespace).reverse

/-- Digits of a decimal literal to a natural number
(`foldl` over the characters, as positional notation). -/
def digitsVal (ds : List Char) : Nat :=
  ds.foldl (fun a c => a * 10 + (c.toNat - 48)) 0

/-- `True` iff every character is a decimal digit. -/
def allDigits (ds : List Char) : Bool :=
  ds.all Char.isDigit

/-- Unsigned part of Python `float(s)` restricted to finite decimal literals
`digits[.digits]` (Python additionally accepts exponents, `inf`/`nan` and
underscores; those shapes never occur in the data this code handles and are
treated as non-coercible). -/
def parseDec (cs : List Char) : Option ℚ :=
  let ip := cs.takeWhile (fun c => c ≠ '.')
  match cs.dropWhile (fun c => c ≠ '.') with
  | [] =>
      if ip ≠ [] ∧ allDigits ip then some (digitsVal ip) else Option.none
  | '.' :: fp =>
      if allDigits ip ∧ allDigits fp ∧ (ip ≠ [] ∨ fp ≠ []) then
        some ((digitsVal (ip ++ fp) : ℚ) / (10 ^ fp.length))
      else Option.none
  | _ :: _ => Option.none

/-- Python `float(s)` on a string: optional sign, then a finite decimal
literal, surrounding whitespace stripped. `Option.none` models `ValueError`. -/
def parseFloat (s : String) : Option ℚ :=
  match stripChars s.toList with
  | '+' :: rest => parseDec rest
  | '-' :: rest => (parseDec rest).map (fun q => -q)
  | cs => parseDec cs

/-- `weather_api/utils/helpers.py`, `safe_float_conversion`:
`None → None`; otherwise `float(value)` with `ValueError`/`TypeError`
mapped to `None`.  Python `float` on a bool gives `0.0`/`1.0`. -/
def safe_float_conversion : Val → Option ℚ
  | Val.none => Option.none
  | Val.num q => some q
  | Val.bool b => some (if b then 1 else 0)
  | Val.str s => parseFloat s

/-- The per-record extraction step of the `calculate_statistics` loop
(both variants):  `if field in measurement and measurement[field] is not
None: value = float-coerce; if value is not None: append`. -/
def extractValue (field : String) (m : Measurement) : Option ℚ :=
  match m.lookup field with
  | some v => if v = Val.none then Option.none else safe_float_conversion v
  | Option.none => Option.none

/-- The list `values` accumulated by the `calculate_statistics` loop:
the valid coerced numeric values of `field`, in input order. -/
def validValues (measurements : List Measurement) (field : String) : List ℚ :=
  measurements.filterMap (extractValue field)

/-- Python `min` over a nonempty list, as a fold of binary `min`. -/
def listMin (x : ℚ) (xs : List ℚ) : ℚ :=
  xs.foldl Min.min x

/-- Python `max` over a nonempty list, as a fold of binary `max`. -/
def listMax (x : ℚ) (xs : List ℚ) : ℚ :=
  xs.foldl Max.max x

/-- Python `sum` over a list of floats. -/
def listSum (xs : List ℚ) : ℚ :=
  xs.foldl (fun a b => a + b) 0

/-- `weather_api/utils/helpers.py`, `validate_temperature_unit`:
`unit.lower() in ['celsius', 'fahrenheit', 'kelvin']`. -/
def validate_temperature_unit (unit : String) : Bool :=
  pyLower unit == "celsius" || pyLower unit == "fahrenheit" ||
    pyLower unit == "kelvin"

namespace Core

/-- `weather_api/core/services.py`, `WeatherDataProcessor.calculate_statistics`:
raises `NoDataFoundException("No measurements provided")` on an empty
measurement list; collects the valid coerced values of `field`; returns the
all-`None` dict when none are valid, else `min`/`max`/`calculate_average`.
(The `try`/`except DataProcessingException` wrapper guards `min`/`max`/average
on the nonempty `values` list, where they cannot raise; it has no reachable
effect and is not represented.) -/
def calculate_statistics (measurements : List Measurement) (field : String) :
    Except WErr Stats :=
  if measurements.isEmpty then
    Except.error (WErr.noDataFound "No measurements provided")
  else
    match validValues measurements field with
    | [] => Except.ok ⟨Option.none, Option.none, Option.none⟩
    | x :: xs =>
        Except.ok ⟨some (listMin x xs), some (listMax x xs),
          some (listSum (x :: xs) / (x :: xs).length)⟩

/-- `weather_api/core/services.py`, `WeatherDataProcessor.convert_temperature`:
validates the unit first; `None` passes through; otherwise converts from
Celsius by `unit.lower()` dispatch.  The final fall-through (no branch taken)
returns Python `None`; it is unreachable after validation but represented
faithfully. -/
def convert_temperature (temp_celsius : Option ℚ) (unit : String) :
    Except WErr (Option ℚ) :=
  if ¬ validate_temperature_unit unit then
    Except.error (WErr.invalidUnit unit)
  else
    match temp_celsius with
    | Option.none => Except.ok Option.none
    | some t =>
        if pyLower unit = "celsius" then Except.ok (some t)
        else if pyLower unit = "fahrenheit" then
          Except.ok (some (t * 9 / 5 + 32))
        else if pyLower unit = "kelvin" then
          Except.ok (some (t + 273.15))
        else Except.ok Option.none

/-- Python truthiness of a `stats.get(...)` result (`None` or a float):
falsy iff `None` or `0.0`. -/
def optFalsy : Option ℚ → Bool
  | Option.none => true
  | some q => q == 0

/-- `weather_api/core/services.py`,
`WeatherDataProcessor.convert_temperature_stats`: validates the unit first;
returns the input dict itself when `min`, `max` and `promedio` are all
falsy (`not stats.get(k)` for each); otherwise builds a new dict converting
each of the three entries. -/
def convert_temperature_stats (stats : Stats) (unit : String) :
    Except WErr Stats :=
  if ¬ validate_temperature_unit unit then
    Except.error (WErr.invalidUnit unit)
  else if optFalsy stats.min && optFalsy stats.max && optFalsy stats.promedio then
    Except.ok stats
  else do
    let mn ← convert_temperature stats.min unit
    let mx ← convert_temperature stats.max unit
    let pr ← convert_temperature stats.promedio unit
    Except.ok ⟨mn, mx, pr⟩

end Core

namespace Legacy

/-- `weather_api/services.py`, `WeatherDataProcessor.calculate_statistics`:
no empty-list check — collects the valid coerced values (inline
`float(...)` with `ValueError`/`TypeError` skipped, same extraction as the
core variant) and returns the all-`None` dict when none are valid, else
`min`/`max`/`sum/len`.  This variant never raises. -/
def calculate_statistics (measurements : List Measurement) (field : String) :
    Stats :=
  match validValues measurements field with
  | [] => ⟨Option.none, Option.none, Option.none⟩
  | x :: xs =>
      ⟨some (listMin x xs), some (listMax x xs),
        some (listSum (x :: xs) / (x :: xs).length)⟩

/-- `weather_api/services.py`, `WeatherDataProcessor.convert_temperature`:
no unit pre-validation and no `None` handling.  A `None` input is returned
unchanged by the `celsius` branch, but `None * 9` / `None + 273.15` raise
`TypeError` in the other branches; an unknown unit raises `ValueError`. -/
def convert_temperature (temp_celsius : Option ℚ) (unit : String) :
    Except WErr (Option ℚ) :=
  if pyLower unit = "celsius" then Except.ok temp_celsius
  else if pyLower unit = "fahrenheit" then
    match temp_celsius with
    | Option.none => Except.error WErr.typeError
    | some t => Except.ok (some (t * 9 / 5 + 32))
  else if pyLower unit = "kelvin" then
    match temp_celsius with
    | Option.none => Except.error WErr.typeError
    | some t => Except.ok (some (t + 273.15))
  else Except.error (WErr.valueError "Unit must be celsius, fahrenheit, or kelvin")

/-- `weather_api/services.py`,
`WeatherDataProcessor.convert_temperature_stats`: returns the input dict
itself when ANY of `stats['min']`, `stats['max']`, `stats['promedio']` is
falsy (`not stats['min'] or not stats['max'] or not stats['promedio']`);
the unit is only examined inside `convert_temperature` when all three are
truthy. -/
def convert_temperature_stats (stats : Stats) (unit : String) :
    Except WErr Stats :=
  if Core.optFalsy stats.min || Core.optFalsy stats.max || Core.optFalsy stats.promedio then
    Except.ok stats
  else do
    let mn ← convert_temperature stats.min unit
    let mx ← convert_temperature stats.max unit
    let pr ← convert_temperature stats.promedio unit
    Except.ok ⟨mn, mx, pr⟩

end Legacy

/-- Spec-side restatement of "all three of min, max and promedio are
null-or-falsy" (Python falsiness of a float-or-`None`: `None` or `0.0`). -/
def allNullOrFalsy (s : Stats) : Prop :=
  (s.min = Option.none ∨ s.min = some 0) ∧
  (s.max = Option.none ∨ s.max = some 0) ∧
  (s.promedio = Option.none ∨ s.promedio = some 0)

instance (s : Stats) : Decidable (allNullOrFalsy s) := by
  unfold allNullOrFalsy
  infer_instance

/-! ### Helper lemmas: folds of `min`, `max` and `+` over lists -/

theorem foldlMin_le_init (x : ℚ) (xs : List ℚ) : xs.foldl Min.min x ≤ x := by
  induction xs generalizing x with
  | nil => simp
  | cons a as ih => exact le_trans (ih (Min.min x a)) (min_le_left x a)

theorem foldlMin_le_mem (x y : ℚ) (xs : List ℚ) (h : y ∈ xs) :
    xs.foldl Min.min x ≤ y := by
  induction xs generalizing x with
  | nil => cases h
  | cons a as ih =>
      rcases List.mem_cons.mp h with rfl | h'
      · exact le_trans (foldlMin_le_init (Min.min x y) as) (min_le_right x y)
      · exact ih _ h'

theorem listMin_le (x y : ℚ) (xs : List ℚ) (h : y ∈ x :: xs) :
    listMin x xs ≤ y := by
  rcases List.mem_cons.mp h with rfl | h'
  · exact foldlMin_le_init _ _
  · exact foldlMin_le_mem x y xs h'

theorem init_le_foldlMax (x : ℚ) (xs : List ℚ) : x ≤ xs.foldl Max.max x := by
  induction xs generalizing x with
  | nil => simp
  | cons a as ih => exact le_trans (le_max_left x a) (ih (Max.max x a))

theorem mem_le_foldlMax (x y : ℚ) (xs : List ℚ) (h : y ∈ xs) :
    y ≤ xs.foldl Max.max x := by
  induction xs generalizing x with
  | nil => cases h
  | cons a as ih =>
      rcases List.mem_cons.mp h with rfl | h'
      · exact le_trans (le_max_right x y) (init_le_foldlMax (Max.max x y) as)
      · exact ih _ h'

theorem le_listMax (x y : ℚ) (xs : List ℚ) (h : y ∈ x :: xs) :
    y ≤ listMax x xs := by
  rcases List.mem_cons.mp h with rfl | h'
  · exact init_le_foldlMax _ _
  · exact mem_le_foldlMax x y xs h'

theorem foldl_add_eq (a : ℚ) (l : List ℚ) :
    l.foldl (fun u v => u + v) a = a + l.sum := by
  induction l generalizing a with
  | nil => simp
  | cons b bs ih =>
      simp only [List.foldl, List.sum_cons, ih (a + b)]
      ring

theorem listSum_eq_sum (l : List ℚ) : listSum l = l.sum := by
  simpa [listSum] using foldl_add_eq 0 l

theorem listSum_cons (b : ℚ) (bs : List ℚ) :
    listSum (b :: bs) = b + listSum bs := by
  simp [listSum_eq_sum]

theorem bound_mul_le_listSum (l : List ℚ) (a : ℚ) (h : ∀ y ∈ l, a ≤ y) :
    (l.length : ℚ) * a ≤ listSum l := by
  induction l with
  | nil => simp [listSum]
  | cons b bs ih =>
      have hb := h b (List.mem_cons_self _ _)
      have ih' := ih (fun y hy => h y (List.mem_cons_of_mem _ hy))
      rw [listSum_cons]
      have hlen : (((b :: bs).length : ℚ)) * a = (bs.length : ℚ) * a + a := by
        push_cast [List.length_cons]
        ring
      rw [hlen]
      linarith

theorem listSum_le_bound_mul (l : List ℚ) (b : ℚ) (h : ∀ y ∈ l, y ≤ b) :
    listSum l ≤ (l.length : ℚ) * b := by
  induction l with
  | nil => simp [listSum]
  | cons a as ih =>
      have ha := h a (List.mem_cons_self _ _)
      have ih' := ih (fun y hy => h y (List.mem_cons_of_mem _ hy))
      rw [listSum_cons]
      have hlen : (((a :: as).length : ℚ)) * b = (as.length : ℚ) * b + b := by
        push_cast [List.length_cons]
        ring
      rw [hlen]
      linarith

/-- A parsed JSON value, as returned by `response.json()` from the upstream
GlobalMet endpoint. -/
inductive JVal where
  | null : JVal
  | jbool : Bool → JVal
  | jnum : ℚ → JVal
  | jstr : String → JVal
  | jarr : List JVal → JVal
  | jobj : List (String × JVal) → JVal

/-- `GlobalMetAPIClient.get_measurements_list` (textually identical in
`weather_api/core/services.py` and `weather_api/services.py`), applied to
the parsed JSON body returned by `get_measurements_by_date`: a list is
returned as-is; a dict is checked for the keys `results`, `data`,
`mediciones` in that order and the first hit's value returned; a dict with
none of them is wrapped in a one-element list; anything else becomes the
empty list.  The fetch itself (HTTP request, auth header, date defaulting
and validation) is outside this model, so the function is parameterized by
the upstream response value. -/
def get_measurements_list (data : JVal) : JVal :=
  match data with
  | JVal.jarr xs => JVal.jarr xs
  | JVal.jobj kvs =>
      match kvs.lookup "results" with
      | some v => v
      | Option.none =>
          match kvs.lookup "data" with
          | some v => v
          | Option.none =>
              match kvs.lookup "mediciones" with
              | some v => v
              | Option.none => JVal.jarr [JVal.jobj kvs]
  | _ => JVal.jarr []

/-- The envelope keys the spec prescribes, in priority order. -/
def envelopeKeys : List String := ["results", "data", "mediciones"]

/-- Response-shape normalization as the spec words it: a raw array as-is;
an object resolved through the ordered fallback list of envelope keys; an
object with none of them wrapped in a one-element list; anything else the
empty list. -/
def normalizeSpec (data : JVal) : JVal :=
  match data with
  | JVal.jarr xs => JVal.jarr xs
  | JVal.jobj kvs =>
      match envelopeKeys.findSome? (fun k => kvs.lookup k) with
      | some v => v
      | Option.none => JVal.jarr [JVal.jobj kvs]
  | _ => JVal.jarr []

/-- A calendar date, ordered lexicographically like `datetime.date`. -/
structure Date where
  year : Nat
  month : Nat
  day : Nat
deriving DecidableEq

/-- Python `date.__lt__`: lexicographic on (year, month, day). -/
def dateLt (a b : Date) : Bool :=
  if a.year ≠ b.year then decide (a.year < b.year)
  else if a.month ≠ b.month then decide (a.month < b.month)
  else decide (a.day < b.day)

/-- Gregorian leap year, as `datetime` computes it. -/
def isLeapYear (y : Nat) : Bool :=
  (y % 4 == 0 && y % 100 != 0) || (y % 400 == 0)

/-- Days in a month, as `datetime` validates them. -/
def daysInMonth (y m : Nat) : Nat :=
  if m = 2 then (if isLeapYear y then 29 else 28)
  else if m = 4 ∨ m = 6 ∨ m = 9 ∨ m = 11 then 30
  else 31

/-- Split a character list at `'-'` separators. -/
def splitDash (cs : List Char) : List (List Char) :=
  match cs with
  | [] => [[]]
  | c :: rest =>
      let r := splitDash rest
      if c = '-' then [] :: r
      else
        match r with
        | [] => [[c]]
        | g :: gs => (c :: g) :: gs

/-- `datetime.strptime(s, '%Y-%m-%d')` (and the DRF `DateField` with input
format `%Y-%m-%d`), modelled for the shapes this API receives: three
dash-separated non-empty all-digit components with a valid month and
day-of-month.  `Option.none` models `ValueError`. -/
def parseDateYMD (s : String) : Option Date :=
  match splitDash s.toList with
  | [ys, ms, ds] =>
      if ys ≠ [] ∧ ms ≠ [] ∧ ds ≠ [] ∧
          allDigits ys ∧ allDigits ms ∧ allDigits ds then
        let y := digitsVal ys
        let m := digitsVal ms
        let d := digitsVal ds
        if 1 ≤ m ∧ m ≤ 12 ∧ 1 ≤ d ∧ d ≤ daysInMonth y m then
          some ⟨y, m, d⟩
        else Option.none
      else Option.none
  | _ => Option.none

/-- Outcome of the query-validation stage of a weather endpoint: either an
immediate HTTP 400, or the upstream fetch proceeds with the date parameter
that will be passed to `get_measurements_list`. -/
inductive HandlerStep where
  | badRequest : String → HandlerStep
  | upstreamFetch : Option String → HandlerStep
deriving DecidableEq

/-- `WeatherQuerySerializer.validate_dia`
(`weather_api/api/serializers.py`): rejects a parsed `dia` strictly later
than `date.today()`. -/
def validate_dia (today d : Date) : Except String Date :=
  if dateLt today d then Except.error "Date cannot be in the future"
  else Except.ok d

/-- Two-digit zero-padded `strftime` field. -/
def pad2 (n : Nat) : String :=
  if n < 10 then "0" ++ toString n else toString n

/-- Four-digit zero-padded `strftime` year. -/
def pad4 (n : Nat) : String :=
  if n < 10 then "000" ++ toString n
  else if n < 100 then "00" ++ toString n
  else if n < 1000 then "0" ++ toString n
  else toString n

/-- `dia.strftime('%Y-%m-%d')`. -/
def formatDateYMD (d : Date) : String :=
  pad4 d.year ++ "-" ++ pad2 d.month ++ "-" ++ pad2 d.day

/-- The query-validation stage shared by every DRF weather view
(`weather_api/api/views.py`): each `get` first runs its query serializer
(all of them derive from `WeatherQuerySerializer`) with
`raise_exception=True`, so an unparseable or future `dia` raises a
validation error — HTTP 400 — before `GlobalMetAPIClient` is constructed;
otherwise the fetch proceeds with
`dia.strftime('%Y-%m-%d') if dia else None`. -/
def drfViewQueryStage (today : Date) (dia : Option String) : HandlerStep :=
  match dia with
  | Option.none => HandlerStep.upstreamFetch Option.none
  | some s =>
      match parseDateYMD s with
      | Option.none => HandlerStep.badRequest "Date has wrong format."
      | some d =>
          match validate_dia today d with
          | Except.error msg => HandlerStep.badRequest msg
          | Except.ok d2 => HandlerStep.upstreamFetch (some (formatDateYMD d2))

/-- The corresponding stage of every legacy function-based view
(`weather_api/views.py`): `dia = request.GET.get('dia')` is passed straight
to `GlobalMetAPIClient.get_measurements_list`; the only date check is the
`strptime` format validation inside `get_measurements_by_date`
(`ValueError`, caught by the view and returned as 400).  No future-date
check exists on this path. -/
def legacyViewQueryStage (_today : Date) (dia : Option String) : HandlerStep :=
  match dia with
  | Option.none => HandlerStep.upstreamFetch Option.none
  | some s =>
      match parseDateYMD s with
      | Option.none => HandlerStep.badRequest "Date must be in YYYY-MM-DD format"
      | some _ => HandlerStep.upstreamFetch (some s)

/-- A CSV document: a header row of field names and data rows of cells. -/
structure CsvDoc where
  header : List String
  rows : List (List Val)
deriving DecidableEq

/-- Result of the raw-measurements export after the fetch: HTTP 404 with an
error body, or a CSV attachment with its filename. -/
inductive ExportResult where
  | notFound : String → ExportResult
  | csvAttachment : CsvDoc → String → ExportResult
deriving DecidableEq

/-- `leadsWith hay needle`: `needle` is an initial run of `hay`. -/
def leadsWith : List Char → List Char → Bool
  | _, [] => true
  | [], _ :: _ => false
  | c :: cs, d :: ds => c == d && leadsWith cs ds

/-- `needle` occurs as a contiguous segment of the second list. -/
def hasSeg (needle : List Char) : List Char → Bool
  | [] => leadsWith [] needle
  | c :: rest => leadsWith (c :: rest) needle || hasSeg needle rest

namespace Core

/-- `ExportMeasurementsView.get` (`weather_api/api/views.py`), from the
point where `measurements` has been fetched: an empty list raises
`NoDataFoundException(dia_str or 'today')` — whose message
(`weather_api/core/exceptions.py`) is
`"No measurements found for date: {date_str}"` — mapped to HTTP 404 by
`BaseWeatherView.handle_exception`; otherwise the header row is the first
record's keys, with one row per record via `measurement.get(header, '')`,
and the filename is `format_filename('mediciones', dia_str)`. -/
def exportMeasurements (dia_str : Option String)
    (measurements : List Measurement) : ExportResult :=
  match measurements with
  | [] =>
      ExportResult.notFound
        ("No measurements found for date: " ++ dia_str.getD "today")
  | m0 :: rest =>
      let headers := m0.map Prod.fst
      ExportResult.csvAttachment
        ⟨headers,
          (m0 :: rest).map (fun m =>
            headers.map (fun h => (m.lookup h).getD (Val.str "")))⟩
        ("mediciones_" ++ dia_str.getD "hoy" ++ ".csv")

end Core

namespace Legacy

/-- `exportar_mediciones` (`weather_api/views.py`), from the fetch on: an
empty list returns 404 with the FIXED body
`'No measurements found for the specified date'` (the requested date does
not appear in it); otherwise the same CSV, with filename
`mediciones_<dia|hoy>.csv`. -/
def exportMeasurements (dia : Option String)
    (measurements : List Measurement) : ExportResult :=
  match measurements with
  | [] =>
      ExportResult.notFound "No measurements found for the specified date"
  | m0 :: rest =>
      let headers := m0.map Prod.fst
      ExportResult.csvAttachment
        ⟨headers,
          (m0 :: rest).map (fun m =>
            headers.map (fun h => (m.lookup h).getD (Val.str "")))⟩
        ("mediciones_" ++ dia.getD "hoy" ++ ".csv")

end Legacy

/-- A heap address in the store-based model of the Python object graph. -/
abbrev Addr := Nat

/-- A heap mapping addresses to dict objects. -/
abbrev Heap := List (Addr × Measurement)

/-- Reading a dict through a reference.  The addresses the model passes
around are always allocated; a dangling address reads as the empty dict. -/
def heapRead (h : Heap) (a : Addr) : Measurement :=
  (h.lookup a).getD []

/-- One strictly above every allocated address: the address at which a new
object is allocated. -/
def freshAddr (h : Heap) : Addr :=
  (h.map Prod.fst).foldr Nat.max 0 + 1

/-- Python truthiness of a value read from a stats dict. -/
def valTruthy : Val → Bool
  | Val.none => false
  | Val.num q => q != 0
  | Val.str s => s != ""
  | Val.bool b => b

/-- `not stats.get(k)` in Python: key absent, `None`, or otherwise falsy. -/
def getFalsy (o : Measurement) (k : String) : Bool :=
  match o.lookup k with
  | some v => ! valTruthy v
  | Option.none => true

namespace Core

/-- Store-passing translation of the `calculate_statistics` loop
(`weather_api/core/services.py`): the measurements argument is a Python
list of references; each iteration reads one record through the heap and
performs the extraction of `extractValue`; no heap cell is ever written. -/
def statsLoopSt (field : String) : List Addr → Heap → List ℚ × Heap
  | [], h => ([], h)
  | a :: rest, h =>
      let m := heapRead h a
      match extractValue field m with
      | some q =>
          let vh := statsLoopSt field rest h
          (q :: vh.1, vh.2)
      | Option.none => statsLoopSt field rest h

/-- Store-passing `calculate_statistics`: the same computation as
`Core.calculate_statistics`, with the records read through the heap. -/
def calculate_statistics_st (h : Heap) (addrs : List Addr) (field : String) :
    Except WErr Stats × Heap :=
  if addrs.isEmpty then
    (Except.error (WErr.noDataFound "No measurements provided"), h)
  else
    match statsLoopSt field addrs h with
    | ([], h2) => (Except.ok ⟨Option.none, Option.none, Option.none⟩, h2)
    | (x :: xs, h2) =>
        (Except.ok ⟨some (listMin x xs), some (listMax x xs),
          some (listSum (x :: xs) / (x :: xs).length)⟩, h2)

/-- `convert_temperature` applied to a raw `stats.get(...)` value, as the
core `convert_temperature_stats` calls it: unit validated first; `None`
(or an absent key, which `get` turns into `None`) passes through; the
celsius branch returns any value unchanged; numbers (and bools, on which
Python arithmetic acts as 0/1) convert; for the non-celsius units a string
raises `TypeError` inside the `try`, surfaced as
`TemperatureConversionException`. -/
def convert_temperature_py (v : Val) (unit : String) : Except WErr Val :=
  if ¬ validate_temperature_unit unit then
    Except.error (WErr.invalidUnit unit)
  else if v = Val.none then Except.ok Val.none
  else if pyLower unit = "celsius" then Except.ok v
  else
    match v with
    | Val.num t =>
        if pyLower unit = "fahrenheit" then
          Except.ok (Val.num (t * 9 / 5 + 32))
        else if pyLower unit = "kelvin" then
          Except.ok (Val.num (t + 273.15))
        else Except.ok Val.none
    | Val.bool b =>
        if pyLower unit = "fahrenheit" then
          Except.ok (Val.num ((if b then 1 else 0) * 9 / 5 + 32))
        else if pyLower unit = "kelvin" then
          Except.ok (Val.num ((if b then 1 else 0) + 273.15))
        else Except.ok Val.none
    | _ => Except.error WErr.tempConversion

/-- Store-passing `convert_temperature_stats`
(`weather_api/core/services.py`): reads the stats dict through the heap;
after unit validation, if all three entries are falsy the function returns
the INPUT REFERENCE with the heap untouched; otherwise it builds a new
dict — allocated at a fresh address — holding the three converted entries,
never writing to the input object. -/
def convert_temperature_stats_st (h : Heap) (sa : Addr) (unit : String) :
    Except WErr Addr × Heap :=
  let stats := heapRead h sa
  if ¬ validate_temperature_unit unit then
    (Except.error (WErr.invalidUnit unit), h)
  else if getFalsy stats "min" && getFalsy stats "max" &&
      getFalsy stats "promedio" then
    (Except.ok sa, h)
  else
    match convert_temperature_py ((stats.lookup "min").getD Val.none) unit,
        convert_temperature_py ((stats.lookup "max").getD Val.none) unit,
        convert_temperature_py ((stats.lookup "promedio").getD Val.none) unit with
    | Except.ok mn, Except.ok mx, Except.ok pr =>
        (Except.ok (freshAddr h),
          (freshAddr h, [("min", mn), ("max", mx), ("promedio", pr)]) :: h)
    | Except.error e, _, _ => (Except.error e, h)
    | _, Except.error e, _ => (Except.error e, h)
    | _, _, Except.error e => (Except.error e, h)

end Core

/-- Parse `HH:MM` out of an ISO-like timestamp
`YYYY-MM-DD[ T]HH:MM[...]`, if well-formed. -/
def parseHHMM (cs : List Char) : Option String :=
  match cs with
  | y1 :: y2 :: y3 :: y4 :: '-' :: m1 :: m2 :: '-' :: d1 :: d2 :: sep ::
      h1 :: h2 :: ':' :: n1 :: n2 :: _ =>
      if (sep = ' ' ∨ sep = 'T') ∧
          allDigits [y1, y2, y3, y4, m1, m2, d1, d2, h1, h2, n1, n2] ∧
          digitsVal [h1, h2] ≤ 23 ∧ digitsVal [n1, n2] ≤ 59 then
        some (String.mk [h1, h2, ':', n1, n2])
      else Option.none
  | _ => Option.none

/-- Modelled from the spec: formatting of a record timestamp for the
timestamp-tracking statistics variant (spec §4.2), which is absent from
`src/` — local time-of-day `HH:MM` in the fixed America/Hermosillo
timezone, with the sentinel `"--"` when the timestamp is missing or
unparseable.  The station's upstream timestamps are taken to be already
local to America/Hermosillo (a fixed-offset zone without DST), so
formatting extracts the time-of-day from the timestamp string. -/
def formatHHMM : Option Val → String
  | some (Val.str s) =>
      match parseHHMM s.toList with
      | some hm => hm
      | Option.none => "--"
  | _ => "--"

/-- The (value, timestamp) pairs the timestamp-tracking variant collects:
the valid coerced value of `field` paired with the record's `timestamp`
entry, if any. -/
def statPairs (measurements : List Measurement) (field : String) :
    List (ℚ × Option Val) :=
  measurements.filterMap (fun m =>
    (extractValue field m).map (fun q => (q, m.lookup "timestamp")))

/-- Statistics dict of the timestamp-tracking variant:
min/max/promedio plus `min_time`/`max_time` (null when no valid values). -/
structure StatsT where
  min : Option ℚ
  max : Option ℚ
  promedio : Option ℚ
  min_time : Option String
  max_time : Option String
deriving DecidableEq

/-- Modelled from the spec: the extrema-tracking loop — running minimum and
maximum together with the timestamp of the record that set each, updated
only on a STRICT improvement, so a tie keeps the earliest occurrence in
input order. -/
def extremaLoop : List (ℚ × Option Val) → (ℚ × Option Val) →
    (ℚ × Option Val) → (ℚ × Option Val) × (ℚ × Option Val)
  | [], mn, mx => (mn, mx)
  | p :: rest, mn, mx =>
      extremaLoop rest (if p.1 < mn.1 then p else mn)
        (if mx.1 < p.1 then p else mx)

/-- Modelled from the spec: the timestamp-tracking `compute_statistics`
variant of spec §4.2, which the spec adopts as canonical but which is
absent from `src/` (both `calculate_statistics` implementations there
return only min/max/promedio).  It fails with `NoData` on an empty
measurement list; collects the valid values paired with their record
timestamps; returns all-null statistics (null times) when no valid values
exist; otherwise min/max/average plus the formatted timestamps of the
extrema found by `extremaLoop`. -/
def compute_statistics_tracked (measurements : List Measurement)
    (field : String) : Except WErr StatsT :=
  if measurements.isEmpty then
    Except.error (WErr.noDataFound "No measurements provided")
  else
    match statPairs measurements field with
    | [] =>
        Except.ok ⟨Option.none, Option.none, Option.none,
          Option.none, Option.none⟩
    | p :: ps =>
        let mnmx := extremaLoop ps p p
        Except.ok ⟨some mnmx.1.1, some mnmx.2.1,
          some (listSum ((p :: ps).map Prod.fst) /
            (((p :: ps).map Prod.fst).length : ℚ)),
          some (formatHHMM mnmx.1.2), some (formatHHMM mnmx.2.2)⟩

/-! ### Helper lemmas about the embedded service functions -/

theorem extractValue_eq_none (field : String) (m : Measurement)
    (h : m.lookup field = Option.none ∨ m.lookup field = some Val.none ∨
         ∃ v, m.lookup field = some v ∧ safe_float_conversion v = Option.none) :
    extractValue field m = Option.none := by
  unfold extractValue
  rcases h with h | h | ⟨v, hv, hc⟩
  · rw [h]
  · rw [h]
    simp
  · rw [hv]
    by_cases hn : v = Val.none
    · simp [hn]
    · simp [hn, hc]

theorem validValues_eq_nil (measurements : List Measurement) (field : String)
    (h : ∀ m ∈ measurements, extractValue field m = Option.none) :
    validValues measurements field = [] := by
  unfold validValues
  exact List.filterMap_eq_nil_iff.mpr h

theorem convert_temperature_ok (t : Option ℚ) (unit : String)
    (hu : validate_temperature_unit unit = true) :
    ∃ r, Core.convert_temperature t unit = Except.ok r := by
  unfold Core.convert_temperature
  rw [if_neg (by simp [hu])]
  cases t with
  | none => exact ⟨Option.none, rfl⟩
  | some t =>
      by_cases h1 : pyLower unit = "celsius"
      · exact ⟨some t, by simp [h1]⟩
      · by_cases h2 : pyLower unit = "fahrenheit"
        · exact ⟨some (t * 9 / 5 + 32), by simp [h1, h2]⟩
        · by_cases h3 : pyLower unit = "kelvin"
          · exact ⟨some (t + 273.15), by simp [h1, h2, h3]⟩
          · exact ⟨Option.none, by simp [h1, h2, h3]⟩

theorem allNullOrFalsy_iff (s : Stats) :
    allNullOrFalsy s ↔
      (Core.optFalsy s.min && Core.optFalsy s.max &&
        Core.optFalsy s.promedio) = true := by
  obtain ⟨mn, mx, pr⟩ := s
  cases mn <;> cases mx <;> cases pr <;>
    simp [allNullOrFalsy, Core.optFalsy, and_assoc]

/-! ### Claim C1 -/

/-- C1 counterexample: the claim cites both implementations, but the legacy
`weather_api/services.py` `calculate_statistics` has no empty-list check — on
the empty measurement list it returns `{min: None, max: None, promedio: None}`
instead of raising `NoData`. -/
theorem C1_counterexample :
    Legacy.calculate_statistics [] "temperatura_c" =
      ⟨Option.none, Option.none, Option.none⟩ := rfl

/-- C1 (amended to the core implementation `weather_api/core/services.py`):
for every field name, `calculate_statistics` raises `NoData` on the empty
measurements list, and for every non-empty list in which no record yields a
valid numeric value for the field (absent, `None`, or non-coercible in every
record) it returns `{min: None, max: None, promedio: None}` without error. -/
theorem C1_core_nodata_and_allnull (field : String) :
    Core.calculate_statistics [] field =
      Except.error (WErr.noDataFound "No measurements provided") ∧
    ∀ measurements : List Measurement, measurements ≠ [] →
      (∀ m ∈ measurements,
        m.lookup field = Option.none ∨ m.lookup field = some Val.none ∨
        ∃ v, m.lookup field = some v ∧ safe_float_conversion v = Option.none) →
      Core.calculate_statistics measurements field =
        Except.ok ⟨Option.none, Option.none, Option.none⟩ := by
  constructor
  · rfl
  · intro ms hne hinv
    have hv : validValues ms field = [] :=
      validValues_eq_nil ms field
        (fun m hm => extractValue_eq_none field m (hinv m hm))
    unfold Core.calculate_statistics
    rw [if_neg (by simpa [List.isEmpty_iff] using hne)]
    simp only [hv]

/-- C1 witness: a non-empty list with one record whose field value is the
non-coercible string `"abc"` yields the all-null statistics dict. -/
theorem C1_witness :
    Core.calculate_statistics [[("temperatura_c", Val.str "abc")]]
        "temperatura_c" =
      Except.ok ⟨Option.none, Option.none, Option.none⟩ := by
  refine (C1_core_nodata_and_allnull "temperatura_c").2 _ (by simp) ?_
  intro m hm
  simp only [List.mem_singleton] at hm
  subst hm
  right; right
  exact ⟨Val.str "abc", by decide, by decide⟩

/-! ### Claim C3 -/

/-- C3 counterexample: the claim cites both implementations, but the legacy
`weather_api/services.py` `convert_temperature_stats` short-circuits when
ANY of the three values is falsy.  For `{min: 0.0, max: 10.0, promedio: 5.0}`
(not all three null-or-falsy) and unit `fahrenheit` it returns the input
unchanged, although the claim requires the converted dict
`{min: 32, max: 50, promedio: 41}`. -/
theorem C3_counterexample :
    Legacy.convert_temperature_stats ⟨some 0, some 10, some 5⟩ "fahrenheit" =
      Except.ok ⟨some 0, some 10, some 5⟩ ∧
    ¬ allNullOrFalsy ⟨some 0, some 10, some 5⟩ ∧
    (Stats.mk (some 0) (some 10) (some 5)) ≠ ⟨some 32, some 50, some 41⟩ := by
  refine ⟨rfl, by decide, by decide⟩

/-- C3 (amended to the core implementation `weather_api/core/services.py`):
for every stats dict and valid unit, `convert_temperature_stats` returns its
input unchanged when all three of min, max, promedio are null-or-falsy, and
otherwise returns the dict whose min, max, promedio are each the result of
`convert_temperature` on the corresponding input value. -/
theorem C3_core_branches (stats : Stats) (unit : String)
    (hu : validate_temperature_unit unit = true) :
    (allNullOrFalsy stats →
      Core.convert_temperature_stats stats unit = Except.ok stats) ∧
    (¬ allNullOrFalsy stats →
      ∃ mn mx pr,
        Core.convert_temperature stats.min unit = Except.ok mn ∧
        Core.convert_temperature stats.max unit = Except.ok mx ∧
        Core.convert_temperature stats.promedio unit = Except.ok pr ∧
        Core.convert_temperature_stats stats unit = Except.ok ⟨mn, mx, pr⟩) := by
  constructor
  · intro hall
    unfold Core.convert_temperature_stats
    rw [if_neg (by simp [hu])]
    rw [if_pos ((allNullOrFalsy_iff stats).mp hall)]
  · intro hnall
    obtain ⟨mn, h1⟩ := convert_temperature_ok stats.min unit hu
    obtain ⟨mx, h2⟩ := convert_temperature_ok stats.max unit hu
    obtain ⟨pr, h3⟩ := convert_temperature_ok stats.promedio unit hu
    refine ⟨mn, mx, pr, h1, h2, h3, ?_⟩
    unfold Core.convert_temperature_stats
    rw [if_neg (by simp [hu])]
    rw [if_neg (fun hcond => hnall ((allNullOrFalsy_iff stats).mpr hcond))]
    rw [h1, h2, h3]
    rfl

/-- C3 witness: converting `{min: 20, max: 30, promedio: 25}` to kelvin via
the branch characterization. -/
theorem C3_witness :
    Core.convert_temperature_stats ⟨some 20, some 30, some 25⟩ "kelvin" =
      Except.ok ⟨some 293.15, some 303.15, some 298.15⟩ := by
  obtain ⟨mn, mx, pr, h1, h2, h3, h4⟩ :=
    (C3_core_branches ⟨some 20, some 30, some 25⟩ "kelvin" (by decide)).2
      (by decide)
  have e1 : Core.convert_temperature (some 20) "kelvin" =
      Except.ok (some ((20:ℚ) + 273.15)) := rfl
  have e2 : Core.convert_temperature (some 30) "kelvin" =
      Except.ok (some ((30:ℚ) + 273.15)) := rfl
  have e3 : Core.convert_temperature (some 25) "kelvin" =
      Except.ok (some ((25:ℚ) + 273.15)) := rfl
  rw [e1] at h1
  rw [e2] at h2
  rw [e3] at h3
  simp only [Except.ok.injEq] at h1 h2 h3
  rw [h4, ← h1, ← h2, ← h3]
  norm_num

/-! ### Claim C4 -/

/-- C4 counterexample: the claim cites both implementations, but the legacy
`weather_api/services.py` `convert_temperature_stats` does not validate the
unit before its falsy short-circuit: with all-null stats and the invalid unit
`"invalid"` it returns the stats unchanged instead of failing with
`InvalidUnit`. -/
theorem C4_counterexample :
    Legacy.convert_temperature_stats ⟨Option.none, Option.none, Option.none⟩
        "invalid" =
      Except.ok ⟨Option.none, Option.none, Option.none⟩ := rfl

/-- C4 (amended to the core implementation `weather_api/core/services.py`):
for every stats dict, `convert_temperature_stats` with a unit outside
`{celsius, fahrenheit, kelvin}` (case-insensitive) fails with `InvalidUnit`,
even when all three values are null — validation precedes the short-circuit. -/
theorem C4_core_validates_unit_first (stats : Stats) (unit : String)
    (hu : pyLower unit ≠ "celsius" ∧ pyLower unit ≠ "fahrenheit" ∧
          pyLower unit ≠ "kelvin") :
    Core.convert_temperature_stats stats unit =
      Except.error (WErr.invalidUnit unit) := by
  have hval : validate_temperature_unit unit = false := by
    simp [validate_temperature_unit, hu.1, hu.2.1, hu.2.2]
  unfold Core.convert_temperature_stats
  rw [if_pos (by simp [hval])]

/-- C4 witness: all-null stats with unit `"invalid"` fail with `InvalidUnit`. -/
theorem C4_witness :
    Core.convert_temperature_stats ⟨Option.none, Option.none, Option.none⟩
        "invalid" =
      Except.error (WErr.invalidUnit "invalid") :=
  C4_core_validates_unit_first ⟨Option.none, Option.none, Option.none⟩
    "invalid" (by refine ⟨by decide, by decide, by decide⟩)

/-! ### Claim C5 -/

/-- C5: for every non-empty measurement list containing at least one valid
numeric value for the field, the canonical `calculate_statistics` returns
`min ≤ promedio ≤ max`, where `promedio` is the sum of exactly the valid
coerced values divided by their count. -/
theorem C5_min_le_avg_le_max (measurements : List Measurement) (field : String)
    (hne : measurements ≠ []) (hv : validValues measurements field ≠ []) :
    ∃ a b p, Core.calculate_statistics measurements field =
        Except.ok ⟨some a, some b, some p⟩ ∧
      p = listSum (validValues measurements field) /
            ((validValues measurements field).length : ℚ) ∧
      a ≤ p ∧ p ≤ b := by
  rcases hl : validValues measurements field with _ | ⟨x, xs⟩
  · exact absurd hl hv
  · have hlen : (0:ℚ) < ((x :: xs).length : ℚ) := by
      have := Nat.succ_pos xs.length
      exact_mod_cast Nat.cast_pos.mpr (by simp)
    refine ⟨listMin x xs, listMax x xs,
      listSum (x :: xs) / ((x :: xs).length : ℚ), ?_, ?_, ?_, ?_⟩
    · unfold Core.calculate_statistics
      rw [if_neg (by simpa [List.isEmpty_iff] using hne)]
      simp only [hl]
    · rfl
    · rw [le_div_iff₀ hlen]
      have hsum := bound_mul_le_listSum (x :: xs) (listMin x xs)
        (fun y hy => listMin_le x y xs hy)
      linarith [hsum]
    · rw [div_le_iff₀ hlen]
      have hsum := listSum_le_bound_mul (x :: xs) (listMax x xs)
        (fun y hy => le_listMax x y xs hy)
      linarith [hsum]

/-- C5 witness: the spec scenario `[{t:20},{t:25},{t:30}]` on field `t`
gives `{min:20, max:30, promedio:25}` with `20 ≤ 25 ≤ 30`. -/
theorem C5_witness :
    Core.calculate_statistics
        [[("t", Val.num 20)], [("t", Val.num 25)], [("t", Val.num 30)]] "t" =
      Except.ok ⟨some 20, some 30, some 25⟩ ∧
    (20:ℚ) ≤ 25 ∧ (25:ℚ) ≤ 30 := by
  obtain ⟨a, b, p, h1, -, h3, h4⟩ := C5_min_le_avg_le_max
    [[("t", Val.num 20)], [("t", Val.num 25)], [("t", Val.num 30)]] "t"
    (by simp) (by decide)
  have he : Core.calculate_statistics
      [[("t", Val.num 20)], [("t", Val.num 25)], [("t", Val.num 30)]] "t" =
      Except.ok ⟨some 20, some 30, some 25⟩ := by
    have hv : validValues
        [[("t", Val.num 20)], [("t", Val.num 25)], [("t", Val.num 30)]] "t" =
        [20, 25, 30] := by decide
    simp [Core.calculate_statistics, hv, listMin, listMax, listSum]
    norm_num [min_def, max_def]
  rw [he] at h1
  simp only [Except.ok.injEq, Stats.mk.injEq, Option.some.injEq] at h1
  obtain ⟨ha, hb, hp⟩ := h1
  subst ha
  subst hb
  subst hp
  exact ⟨he, h3, h4⟩

/-! ### Claim C7 -/

/-- C7 counterexample: the claim cites both implementations, but in the
legacy `weather_api/services.py` `convert_temperature` a null input does not
pass through for non-celsius units: `None * 9` raises `TypeError`. -/
theorem C7_counterexample :
    Legacy.convert_temperature Option.none "fahrenheit" =
      Except.error WErr.typeError := by decide

/-- C7 (amended to the core implementation `weather_api/core/services.py`):
for every value and valid unit (case-insensitive), `convert_temperature`
returns the identity for celsius, `v*9/5+32` for fahrenheit, `v+273.15` for
kelvin, and passes a null input through as null without error. -/
theorem C7_core_temperature_conversion (v : ℚ) (unit : String)
    (hu : pyLower unit = "celsius" ∨ pyLower unit = "fahrenheit" ∨
          pyLower unit = "kelvin") :
    Core.convert_temperature Option.none unit = Except.ok Option.none ∧
    (pyLower unit = "celsius" →
      Core.convert_temperature (some v) unit = Except.ok (some v)) ∧
    (pyLower unit = "fahrenheit" →
      Core.convert_temperature (some v) unit =
        Except.ok (some (v * 9 / 5 + 32))) ∧
    (pyLower unit = "kelvin" →
      Core.convert_temperature (some v) unit =
        Except.ok (some (v + 273.15))) := by
  have hval : validate_temperature_unit unit = true := by
    rcases hu with h | h | h <;> simp [validate_temperature_unit, h]
  refine ⟨?_, ?_, ?_, ?_⟩
  · unfold Core.convert_temperature
    rw [if_neg (by simp [hval])]
  · intro h
    unfold Core.convert_temperature
    rw [if_neg (by simp [hval])]
    simp [h]
  · intro h
    have hne : pyLower unit ≠ "celsius" := by rw [h]; decide
    unfold Core.convert_temperature
    rw [if_neg (by simp [hval])]
    simp [h, hne]
  · intro h
    have hne1 : pyLower unit ≠ "celsius" := by rw [h]; decide
    have hne2 : pyLower unit ≠ "fahrenheit" := by rw [h]; decide
    unfold Core.convert_temperature
    rw [if_neg (by simp [hval])]
    simp [h, hne1, hne2]

/-- C7 witness: `convert_temperature(0,'fahrenheit') = 32` and
`convert_temperature(0,'kelvin') = 273.15` exactly, and a null input passes
through for a non-celsius unit. -/
theorem C7_witness :
    Core.convert_temperature (some 0) "fahrenheit" = Except.ok (some 32) ∧
    Core.convert_temperature (some 0) "kelvin" = Except.ok (some 273.15) ∧
    Core.convert_temperature Option.none "fahrenheit" =
      Except.ok Option.none := by
  refine ⟨?_, ?_, ?_⟩
  · have h := (C7_core_temperature_conversion 0 "fahrenheit"
      (Or.inr (Or.inl (by decide)))).2.2.1 (by decide)
    rw [h]
    norm_num
  · have h := (C7_core_temperature_conversion 0 "kelvin"
      (Or.inr (Or.inr (by decide)))).2.2.2 (by decide)
    rw [h]
    norm_num
  · exact (C7_core_temperature_conversion 0 "fahrenheit"
      (Or.inr (Or.inl (by decide)))).1

/-! ### Claim C6 -/

/-- C6: `get_measurements_list` normalizes every upstream response exactly
as the spec's ordered-fallback description `normalizeSpec` does — raw array
as-is, dict resolved through `results`/`data`/`mediciones` in that priority
order, key-less dict wrapped in a one-element list, anything else the empty
list — and in particular `{"results": [{"t": 1}]}` normalizes to the same
list as the raw input `[{"t": 1}]`. -/
theorem C6_response_normalization :
    (∀ data : JVal, get_measurements_list data = normalizeSpec data) ∧
    get_measurements_list
        (JVal.jobj [("results", JVal.jarr [JVal.jobj [("t", JVal.jnum 1)]])]) =
      get_measurements_list (JVal.jarr [JVal.jobj [("t", JVal.jnum 1)]]) := by
  constructor
  · intro data
    cases data with
    | jobj kvs =>
        cases hr : kvs.lookup "results" with
        | some v =>
            simp [get_measurements_list, normalizeSpec, envelopeKeys,
              List.findSome?_cons, hr]
        | none =>
            cases hd : kvs.lookup "data" with
            | some v =>
                simp [get_measurements_list, normalizeSpec, envelopeKeys,
                  List.findSome?_cons, hr, hd]
            | none =>
                cases hm : kvs.lookup "mediciones" with
                | some v =>
                    simp [get_measurements_list, normalizeSpec, envelopeKeys,
                      List.findSome?_cons, hr, hd, hm]
                | none =>
                    simp [get_measurements_list, normalizeSpec, envelopeKeys,
                      List.findSome?_cons, hr, hd, hm]
    | null => rfl
    | jbool b => rfl
    | jnum q => rfl
    | jstr s => rfl
    | jarr xs => rfl
  · rfl

/-! ### Claim C8 -/

/-- C8 counterexample: the claim covers every endpoint accepting `dia`, but
the legacy function-based endpoints (`weather_api/views.py`) perform no
future-date validation — with server date 2025-10-12, `dia=2099-01-01`
passes the format check and the upstream call proceeds instead of being
rejected with 400. -/
theorem C8_counterexample :
    legacyViewQueryStage ⟨2025, 10, 12⟩ (some "2099-01-01") =
      HandlerStep.upstreamFetch (some "2099-01-01") := by decide

/-- C8 (amended to the DRF endpoints of `weather_api/api/views.py`, which
all validate through `WeatherQuerySerializer`): a `dia` parsing to a
calendar date strictly later than the server's current date is rejected
with HTTP 400 before any upstream call. -/
theorem C8_drf_rejects_future_date (today : Date) (s : String) (d : Date)
    (hp : parseDateYMD s = some d) (hf : dateLt today d = true) :
    drfViewQueryStage today (some s) =
      HandlerStep.badRequest "Date cannot be in the future" := by
  simp only [drfViewQueryStage, hp, validate_dia, hf, if_true]

/-- C8 witness: with server date 2025-10-12, the DRF validation stage
rejects `dia=2099-01-01` with 400. -/
theorem C8_witness :
    drfViewQueryStage ⟨2025, 10, 12⟩ (some "2099-01-01") =
      HandlerStep.badRequest "Date cannot be in the future" :=
  C8_drf_rejects_future_date ⟨2025, 10, 12⟩ "2099-01-01" ⟨2099, 1, 1⟩
    (by decide) (by decide)

/-! ### Claim C9 -/

theorem leadsWith_refl (l : List Char) : leadsWith l l = true := by
  induction l with
  | nil => rfl
  | cons c cs ih => simp [leadsWith, ih]

theorem hasSeg_suffix (pre needle : List Char) :
    hasSeg needle (pre ++ needle) = true := by
  induction pre with
  | nil =>
      cases needle with
      | nil => rfl
      | cons c rest =>
          simp only [List.nil_append, hasSeg, leadsWith_refl, Bool.true_or]
  | cons c cs ih =>
      simp only [List.cons_append, hasSeg, List.append_eq, ih, Bool.or_true]

/-- C9 counterexample: the claim cites both implementations, but the legacy
`exportar_mediciones` (`weather_api/views.py`) returns its 404 with a fixed
error body that does NOT reference the requested date: for `dia=2023-01-01`
and an empty measurement list, the body is
`'No measurements found for the specified date'`, which does not contain
`"2023-01-01"`. -/
theorem C9_counterexample :
    Legacy.exportMeasurements (some "2023-01-01") [] =
      ExportResult.notFound "No measurements found for the specified date" ∧
    hasSeg "2023-01-01".toList
      "No measurements found for the specified date".toList = false :=
  ⟨rfl, by decide⟩

/-- C9 (amended to the DRF view `ExportMeasurementsView`,
`weather_api/api/views.py`): with an empty fetched list the export fails
with `NoDataFound` (mapped to HTTP 404) and an error body containing the
requested date (`'today'` when omitted); with a non-empty list it writes a
header row taken from the first record's field names and one row per
record, filling fields missing from a record with the empty string. -/
theorem C9_core_export (dia_str : Option String)
    (measurements : List Measurement) :
    (measurements = [] →
      Core.exportMeasurements dia_str measurements =
        ExportResult.notFound
          ("No measurements found for date: " ++ dia_str.getD "today") ∧
      hasSeg (dia_str.getD "today").toList
        ("No measurements found for date: " ++ dia_str.getD "today").toList =
          true) ∧
    (∀ m0 rest, measurements = m0 :: rest →
      Core.exportMeasurements dia_str measurements =
        ExportResult.csvAttachment
          ⟨m0.map Prod.fst,
            (m0 :: rest).map (fun m =>
              (m0.map Prod.fst).map (fun k => (m.lookup k).getD (Val.str "")))⟩
          ("mediciones_" ++ dia_str.getD "hoy" ++ ".csv")) := by
  constructor
  · intro hemp
    subst hemp
    refine ⟨rfl, ?_⟩
    have hsplit :
        ("No measurements found for date: " ++ dia_str.getD "today").toList =
          "No measurements found for date: ".toList ++
            (dia_str.getD "today").toList := rfl
    rw [hsplit]
    exact hasSeg_suffix _ _
  · intro m0 rest hcons
    subst hcons
    rfl

/-- C9 witness: the 404 body for `dia=2023-01-01` contains the date, and a
two-record list with a field missing from the second record exports with
the first record's header and an empty-string fill. -/
theorem C9_witness :
    Core.exportMeasurements (some "2023-01-01") [] =
      ExportResult.notFound "No measurements found for date: 2023-01-01" ∧
    hasSeg "2023-01-01".toList
      "No measurements found for date: 2023-01-01".toList = true ∧
    Core.exportMeasurements Option.none
        [[("temperatura_c", Val.num 20), ("humedad_relativa", Val.num 50)],
          [("temperatura_c", Val.num 25)]] =
      ExportResult.csvAttachment
        ⟨["temperatura_c", "humedad_relativa"],
          [[Val.num 20, Val.num 50], [Val.num 25, Val.str ""]]⟩
        "mediciones_hoy.csv" := by
  refine ⟨((C9_core_export (some "2023-01-01") []).1 rfl).1,
    ((C9_core_export (some "2023-01-01") []).1 rfl).2, ?_⟩
  exact (C9_core_export Option.none
    [[("temperatura_c", Val.num 20), ("humedad_relativa", Val.num 50)],
      [("temperatura_c", Val.num 25)]]).2 _ _ rfl

/-! ### Claim C10 -/

theorem statsLoopSt_heap (field : String) (addrs : List Addr) (h : Heap) :
    (Core.statsLoopSt field addrs h).2 = h := by
  induction addrs with
  | nil => rfl
  | cons a rest ih =>
      unfold Core.statsLoopSt
      cases hx : extractValue field (heapRead h a) with
      | some q => simp [hx, ih]
      | none => simp [hx, ih]

theorem lookup_lt_freshAddr (h : Heap) (a : Addr) (o : Measurement)
    (hl : h.lookup a = some o) : a < freshAddr h := by
  induction h with
  | nil => simp [List.lookup] at hl
  | cons p rest ih =>
      rcases p with ⟨b, ob⟩
      by_cases hab : a = b
      · subst hab
        unfold freshAddr
        simp only [List.map_cons, List.foldr_cons]
        exact Nat.lt_succ_of_le (le_max_left _ _)
      · have hbeq : (a == b) = false := beq_eq_false_iff_ne.mpr hab
        have hl2 : rest.lookup a = some o := by
          simpa [List.lookup, hbeq] using hl
        have hlt := ih hl2
        unfold freshAddr at hlt ⊢
        simp only [List.map_cons, List.foldr_cons]
        have hle : a ≤ (rest.map Prod.fst).foldr Nat.max 0 :=
          Nat.lt_succ_iff.mp hlt
        exact Nat.lt_succ_of_le (le_trans hle (le_max_right _ _))

theorem lookup_freshAddr (h : Heap) :
    h.lookup (freshAddr h) = Option.none := by
  cases hl : h.lookup (freshAddr h) with
  | none => rfl
  | some o => exact absurd (lookup_lt_freshAddr h _ o hl) (lt_irrefl _)

theorem lookup_cons_fresh (h : Heap) (o2 : Measurement) (a : Addr)
    (o : Measurement) (hl : h.lookup a = some o) :
    ((freshAddr h, o2) :: h).lookup a = some o := by
  have hne : a ≠ freshAddr h := Nat.ne_of_lt (lookup_lt_freshAddr h a o hl)
  have hbeq : (a == freshAddr h) = false := beq_eq_false_iff_ne.mpr hne
  simp [List.lookup, hbeq, hl]

theorem convert_st_heap_cases (h : Heap) (sa : Addr) (unit : String) :
    (Core.convert_temperature_stats_st h sa unit).2 = h ∨
      ∃ o2, (Core.convert_temperature_stats_st h sa unit).2 =
          (freshAddr h, o2) :: h ∧
        (Core.convert_temperature_stats_st h sa unit).1 =
          Except.ok (freshAddr h) := by
  unfold Core.convert_temperature_stats_st
  by_cases hv : ¬ validate_temperature_unit unit
  · rw [if_pos hv]
    left
    rfl
  · rw [if_neg hv]
    by_cases hf : (getFalsy (heapRead h sa) "min" &&
        getFalsy (heapRead h sa) "max" &&
        getFalsy (heapRead h sa) "promedio") = true
    · rw [if_pos hf]
      left
      rfl
    · rw [if_neg hf]
      cases hc1 : Core.convert_temperature_py
          (((heapRead h sa).lookup "min").getD Val.none) unit with
      | error e => simp [hc1]
      | ok mn =>
          cases hc2 : Core.convert_temperature_py
              (((heapRead h sa).lookup "max").getD Val.none) unit with
          | error e => simp [hc1, hc2]
          | ok mx =>
              cases hc3 : Core.convert_temperature_py
                  (((heapRead h sa).lookup "promedio").getD Val.none) unit with
              | error e => simp [hc1, hc2, hc3]
              | ok pr =>
                  simp only [hc1, hc2, hc3]
                  right
                  exact ⟨[("min", mn), ("max", mx), ("promedio", pr)],
                    rfl, trivial⟩

/-- C10: the store-passing translations of `calculate_statistics` and
`convert_temperature_stats` leave their arguments unchanged:
`calculate_statistics` returns the heap exactly as given (it only reads the
record dicts), and `convert_temperature_stats` never modifies an allocated
object — it either returns the input reference with the heap untouched, or
allocates the converted dict at a fresh address, extending the heap without
touching any existing cell. -/
theorem C10_frame_conditions :
    (∀ (h : Heap) (addrs : List Addr) (field : String),
      (Core.calculate_statistics_st h addrs field).2 = h) ∧
    (∀ (h : Heap) (sa : Addr) (unit : String),
      (∀ (a : Addr) (o : Measurement), h.lookup a = some o →
        ((Core.convert_temperature_stats_st h sa unit).2).lookup a = some o) ∧
      ((Core.convert_temperature_stats_st h sa unit).2 = h ∨
        ∃ o2, h.lookup (freshAddr h) = Option.none ∧
          (Core.convert_temperature_stats_st h sa unit).2 =
            (freshAddr h, o2) :: h ∧
          (Core.convert_temperature_stats_st h sa unit).1 =
            Except.ok (freshAddr h))) := by
  constructor
  · intro h addrs field
    unfold Core.calculate_statistics_st
    by_cases he : addrs.isEmpty
    · simp [he]
    · rcases hsl : Core.statsLoopSt field addrs h with ⟨vs, h2⟩
      have hh : h2 = h := by
        have hkeep := statsLoopSt_heap field addrs h
        rw [hsl] at hkeep
        exact hkeep
      cases vs <;> simp [he, hsl, hh]
  · intro h sa unit
    constructor
    · intro a o hl
      rcases convert_st_heap_cases h sa unit with hcase | ⟨o2, hheap, -⟩
      · rw [hcase]
        exact hl
      · rw [hheap]
        exact lookup_cons_fresh h o2 a o hl
    · rcases convert_st_heap_cases h sa unit with hcase | ⟨o2, hheap, hres⟩
      · left
        exact hcase
      · right
        exact ⟨o2, lookup_freshAddr h, hheap, hres⟩

/-- C10 witness: converting a concrete stats object to kelvin leaves the
object allocated at address 0 exactly as it was. -/
theorem C10_witness :
    ((Core.convert_temperature_stats_st
        [(0, [("min", Val.num 1), ("max", Val.num 3), ("promedio", Val.num 2)])]
        0 "kelvin").2).lookup 0 =
      some [("min", Val.num 1), ("max", Val.num 3), ("promedio", Val.num 2)] :=
  (C10_frame_conditions.2
      [(0, [("min", Val.num 1), ("max", Val.num 3), ("promedio", Val.num 2)])]
      0 "kelvin").1 0
    [("min", Val.num 1), ("max", Val.num 3), ("promedio", Val.num 2)] rfl

/-! ### Claim C2 -/

theorem extremaLoop_min_find (rest : List (ℚ × Option Val))
    (mn mx : ℚ × Option Val) :
    (mn :: rest).find?
        (fun pr => pr.1 == listMin mn.1 (rest.map Prod.fst)) =
      some (extremaLoop rest mn mx).1 := by
  induction rest generalizing mn mx with
  | nil => simp [extremaLoop, listMin]
  | cons q rest ih =>
      by_cases hq : q.1 < mn.1
      · have hmin : listMin mn.1 ((q :: rest).map Prod.fst) =
            listMin q.1 (rest.map Prod.fst) := by
          show List.foldl Min.min (Min.min mn.1 q.1) (rest.map Prod.fst) =
            List.foldl Min.min q.1 (rest.map Prod.fst)
          rw [min_eq_right (le_of_lt hq)]
        have hvle : listMin q.1 (rest.map Prod.fst) ≤ q.1 :=
          foldlMin_le_init _ _
        have hne : mn.1 ≠ listMin q.1 (rest.map Prod.fst) :=
          ne_of_gt (lt_of_le_of_lt hvle hq)
        rw [hmin, List.find?_cons_of_neg _ (by simpa using hne)]
        have hstep : extremaLoop (q :: rest) mn mx =
            extremaLoop rest q (if mx.1 < q.1 then q else mx) := by
          simp [extremaLoop, hq]
        rw [hstep]
        exact ih q (if mx.1 < q.1 then q else mx)
      · have hmin : listMin mn.1 ((q :: rest).map Prod.fst) =
            listMin mn.1 (rest.map Prod.fst) := by
          show List.foldl Min.min (Min.min mn.1 q.1) (rest.map Prod.fst) =
            List.foldl Min.min mn.1 (rest.map Prod.fst)
          rw [min_eq_left (not_lt.mp hq)]
        have hstep : extremaLoop (q :: rest) mn mx =
            extremaLoop rest mn (if mx.1 < q.1 then q else mx) := by
          simp [extremaLoop, hq]
        rw [hmin, hstep]
        have hIH := ih mn (if mx.1 < q.1 then q else mx)
        by_cases hm : mn.1 = listMin mn.1 (rest.map Prod.fst)
        · rw [List.find?_cons_of_pos _ (by simpa using hm)]
          rw [List.find?_cons_of_pos _ (by simpa using hm)] at hIH
          exact hIH
        · have hvle : listMin mn.1 (rest.map Prod.fst) ≤ mn.1 :=
            foldlMin_le_init _ _
          have hvlt : listMin mn.1 (rest.map Prod.fst) < mn.1 :=
            lt_of_le_of_ne hvle (fun hcontra => hm hcontra.symm)
          have hneq : q.1 ≠ listMin mn.1 (rest.map Prod.fst) :=
            ne_of_gt (lt_of_lt_of_le hvlt (not_lt.mp hq))
          rw [List.find?_cons_of_neg _ (by simpa using hm),
            List.find?_cons_of_neg _ (by simpa using hneq)]
          rw [List.find?_cons_of_neg _ (by simpa using hm)] at hIH
          exact hIH

theorem extremaLoop_max_find (rest : List (ℚ × Option Val))
    (mn mx : ℚ × Option Val) :
    (mx :: rest).find?
        (fun pr => pr.1 == listMax mx.1 (rest.map Prod.fst)) =
      some (extremaLoop rest mn mx).2 := by
  induction rest generalizing mn mx with
  | nil => simp [extremaLoop, listMax]
  | cons q rest ih =>
      by_cases hq : mx.1 < q.1
      · have hmax : listMax mx.1 ((q :: rest).map Prod.fst) =
            listMax q.1 (rest.map Prod.fst) := by
          show List.foldl Max.max (Max.max mx.1 q.1) (rest.map Prod.fst) =
            List.foldl Max.max q.1 (rest.map Prod.fst)
          rw [max_eq_right (le_of_lt hq)]
        have hvge : q.1 ≤ listMax q.1 (rest.map Prod.fst) :=
          init_le_foldlMax _ _
        have hne : mx.1 ≠ listMax q.1 (rest.map Prod.fst) :=
          ne_of_lt (lt_of_lt_of_le hq hvge)
        rw [hmax, List.find?_cons_of_neg _ (by simpa using hne)]
        have hstep : extremaLoop (q :: rest) mn mx =
            extremaLoop rest (if q.1 < mn.1 then q else mn) q := by
          simp [extremaLoop, hq]
        rw [hstep]
        exact ih (if q.1 < mn.1 then q else mn) q
      · have hmax : listMax mx.1 ((q :: rest).map Prod.fst) =
            listMax mx.1 (rest.map Prod.fst) := by
          show List.foldl Max.max (Max.max mx.1 q.1) (rest.map Prod.fst) =
            List.foldl Max.max mx.1 (rest.map Prod.fst)
          rw [max_eq_left (not_lt.mp hq)]
        have hstep : extremaLoop (q :: rest) mn mx =
            extremaLoop rest (if q.1 < mn.1 then q else mn) mx := by
          simp [extremaLoop, hq]
        rw [hmax, hstep]
        have hIH := ih (if q.1 < mn.1 then q else mn) mx
        by_cases hm : mx.1 = listMax mx.1 (rest.map Prod.fst)
        · rw [List.find?_cons_of_pos _ (by simpa using hm)]
          rw [List.find?_cons_of_pos _ (by simpa using hm)] at hIH
          exact hIH
        · have hvge : mx.1 ≤ listMax mx.1 (rest.map Prod.fst) :=
            init_le_foldlMax _ _
          have hvgt : mx.1 < listMax mx.1 (rest.map Prod.fst) :=
            lt_of_le_of_ne hvge hm
          have hneq : q.1 ≠ listMax mx.1 (rest.map Prod.fst) :=
            ne_of_lt (lt_of_le_of_lt (not_lt.mp hq) hvgt)
          rw [List.find?_cons_of_neg _ (by simpa using hm),
            List.find?_cons_of_neg _ (by simpa using hneq)]
          rw [List.find?_cons_of_neg _ (by simpa using hm)] at hIH
          exact hIH

/-- C2 (spec-modelled: the timestamp-tracking statistics variant is not
present under `src/`; `compute_statistics_tracked` is modelled from spec
§4.2): for every non-empty measurement list whose valid (value, timestamp)
pairs are `p :: ps`, the computation returns, alongside min/max/average,
a `min_time` and a `max_time` equal to the formatted timestamp
(`formatHHMM`: HH:MM in the fixed America/Hermosillo timezone, sentinel
`"--"` when missing or unparseable) of the FIRST pair in input order whose
value equals the minimum (resp. maximum) — ties resolve to the earliest
occurrence, as witnessed by `List.find?`. -/
theorem C2_tracked_extrema_times (measurements : List Measurement)
    (field : String) (p : ℚ × Option Val) (ps : List (ℚ × Option Val))
    (hne : measurements ≠ [])
    (hp : statPairs measurements field = p :: ps) :
    ∃ pmin pmax,
      (p :: ps).find? (fun pr => pr.1 == listMin p.1 (ps.map Prod.fst)) =
        some pmin ∧
      (p :: ps).find? (fun pr => pr.1 == listMax p.1 (ps.map Prod.fst)) =
        some pmax ∧
      compute_statistics_tracked measurements field =
        Except.ok ⟨some (listMin p.1 (ps.map Prod.fst)),
          some (listMax p.1 (ps.map Prod.fst)),
          some (listSum ((p :: ps).map Prod.fst) /
            (((p :: ps).map Prod.fst).length : ℚ)),
          some (formatHHMM pmin.2), some (formatHHMM pmax.2)⟩ := by
  refine ⟨(extremaLoop ps p p).1, (extremaLoop ps p p).2,
    extremaLoop_min_find ps p p, extremaLoop_max_find ps p p, ?_⟩
  have hminv : (extremaLoop ps p p).1.1 = listMin p.1 (ps.map Prod.fst) := by
    have hfound := List.find?_some (extremaLoop_min_find ps p p)
    simpa using hfound
  have hmaxv : (extremaLoop ps p p).2.1 = listMax p.1 (ps.map Prod.fst) := by
    have hfound := List.find?_some (extremaLoop_max_find ps p p)
    simpa using hfound
  unfold compute_statistics_tracked
  rw [if_neg (by simpa [List.isEmpty_iff] using hne)]
  simp only [hp]
  simp [hminv, hmaxv]

/-- C2 witness: three records with values 5, 3, 5 — the minimum 3 occurs at
the 11:30 record; the maximum 5 first occurs at the 10:00 record (the tie
with the later 12:45 record resolves to the earliest occurrence). -/
theorem C2_witness :
    compute_statistics_tracked
        [[("t", Val.num 5), ("timestamp", Val.str "2023-01-01 10:00:00")],
          [("t", Val.num 3), ("timestamp", Val.str "2023-01-01 11:30:00")],
          [("t", Val.num 5), ("timestamp", Val.str "2023-01-01 12:45:00")]]
        "t" =
      Except.ok ⟨some 3, some 5, some (13/3), some "11:30", some "10:00"⟩ := by
  obtain ⟨pmin, pmax, h1, h2, h3⟩ := C2_tracked_extrema_times
    [[("t", Val.num 5), ("timestamp", Val.str "2023-01-01 10:00:00")],
      [("t", Val.num 3), ("timestamp", Val.str "2023-01-01 11:30:00")],
      [("t", Val.num 5), ("timestamp", Val.str "2023-01-01 12:45:00")]]
    "t"
    (5, some (Val.str "2023-01-01 10:00:00"))
    [(3, some (Val.str "2023-01-01 11:30:00")),
      (5, some (Val.str "2023-01-01 12:45:00"))]
    (by simp) (by decide)
  have e1 : ((5, some (Val.str "2023-01-01 10:00:00")) ::
      [((3:ℚ), some (Val.str "2023-01-01 11:30:00")),
        (5, some (Val.str "2023-01-01 12:45:00"))]).find?
      (fun pr => pr.1 == listMin (5, some (Val.str "2023-01-01 10:00:00")).1
        ([((3:ℚ), some (Val.str "2023-01-01 11:30:00")),
          (5, some (Val.str "2023-01-01 12:45:00"))].map Prod.fst)) =
      some (3, some (Val.str "2023-01-01 11:30:00")) := by decide
  have e2 : ((5, some (Val.str "2023-01-01 10:00:00")) ::
      [((3:ℚ), some (Val.str "2023-01-01 11:30:00")),
        (5, some (Val.str "2023-01-01 12:45:00"))]).find?
      (fun pr => pr.1 == listMax (5, some (Val.str "2023-01-01 10:00:00")).1
        ([((3:ℚ), some (Val.str "2023-01-01 11:30:00")),
          (5, some (Val.str "2023-01-01 12:45:00"))].map Prod.fst)) =
      some (5, some (Val.str "2023-01-01 10:00:00")) := by decide
  have hpmin : some ((3:ℚ), some (Val.str "2023-01-01 11:30:00")) = some pmin :=
    Eq.trans e1.symm h1
  have hpmax : some ((5:ℚ), some (Val.str "2023-01-01 10:00:00")) = some pmax :=
    Eq.trans e2.symm h2
  simp only [Option.some.injEq] at hpmin hpmax
  subst hpmin
  subst hpmax
  rw [h3]
  have hmin : listMin (5:ℚ) [3, 5] = 3 := by norm_num [listMin, min_def]
  have hmax : listMax (5:ℚ) [3, 5] = 5 := by norm_num [listMax, max_def]
  have hsum : listSum [(5:ℚ), 3, 5] = 13 := by norm_num [listSum]
  simp [hmin, hmax, hsum, formatHHMM]
  exact ⟨by decide, by decide⟩
